import Mathlib

/-!
Verification development for the RoboticsSoftware viewport:
a shallow embedding of `ViewportWidget` (src/src/ViewportWidget.cpp,
src/include/ViewportWidget.hpp) and of the scene data it reads, with
theorems about the render passes, the GPU-resource lifecycle, and the
input-event handlers.

Conventions of the embedding:
* machine floats become rationals (ℚ);
* GPU state changes (shader binds, uniform uploads, draw calls,
  context operations) become explicit command/event traces;
* `std::unique_ptr` resource members become `Option` values;
* component types that live in `components.hpp` (not part of the three
  files) are modelled from the spec, as are the Camera operations and the
  toolkit's signal dispatch; each such definition is marked
  `Modelled from the spec:`.
-/

/-- A 3-component vector of rationals (stand-in for `glm::vec3`). -/
structure Vec3 where
  x : ℚ
  y : ℚ
  z : ℚ
deriving DecidableEq

/-- A 4x4 rational matrix (stand-in for `glm::mat4`), row-major fields:
`mRC` is row R, column C. -/
structure Mat4 where
  m00 : ℚ
  m01 : ℚ
  m02 : ℚ
  m03 : ℚ
  m10 : ℚ
  m11 : ℚ
  m12 : ℚ
  m13 : ℚ
  m20 : ℚ
  m21 : ℚ
  m22 : ℚ
  m23 : ℚ
  m30 : ℚ
  m31 : ℚ
  m32 : ℚ
  m33 : ℚ
deriving DecidableEq

/-- The identity transform. -/
def Mat4.idMat : Mat4 :=
  ⟨1,0,0,0, 0,1,0,0, 0,0,1,0, 0,0,0,1⟩

/-- Matrix product (column-vector convention, as in glm: `world = parent * local`). -/
def Mat4.mul (a b : Mat4) : Mat4 where
  m00 := a.m00*b.m00 + a.m01*b.m10 + a.m02*b.m20 + a.m03*b.m30
  m01 := a.m00*b.m01 + a.m01*b.m11 + a.m02*b.m21 + a.m03*b.m31
  m02 := a.m00*b.m02 + a.m01*b.m12 + a.m02*b.m22 + a.m03*b.m32
  m03 := a.m00*b.m03 + a.m01*b.m13 + a.m02*b.m23 + a.m03*b.m33
  m10 := a.m10*b.m00 + a.m11*b.m10 + a.m12*b.m20 + a.m13*b.m30
  m11 := a.m10*b.m01 + a.m11*b.m11 + a.m12*b.m21 + a.m13*b.m31
  m12 := a.m10*b.m02 + a.m11*b.m12 + a.m12*b.m22 + a.m13*b.m32
  m13 := a.m10*b.m03 + a.m11*b.m13 + a.m12*b.m23 + a.m13*b.m33
  m20 := a.m20*b.m00 + a.m21*b.m10 + a.m22*b.m20 + a.m23*b.m30
  m21 := a.m20*b.m01 + a.m21*b.m11 + a.m22*b.m21 + a.m23*b.m31
  m22 := a.m20*b.m02 + a.m21*b.m12 + a.m22*b.m22 + a.m23*b.m32
  m23 := a.m20*b.m03 + a.m21*b.m13 + a.m22*b.m23 + a.m23*b.m33
  m30 := a.m30*b.m00 + a.m31*b.m10 + a.m32*b.m20 + a.m33*b.m30
  m31 := a.m30*b.m01 + a.m31*b.m11 + a.m32*b.m21 + a.m33*b.m31
  m32 := a.m30*b.m02 + a.m31*b.m12 + a.m32*b.m22 + a.m33*b.m32
  m33 := a.m30*b.m03 + a.m31*b.m13 + a.m32*b.m23 + a.m33*b.m33

/-- Translation by `(x, y, z)` (translation in the last column, glm layout). -/
def Mat4.translationBy (x y z : ℚ) : Mat4 :=
  ⟨1,0,0,x, 0,1,0,y, 0,0,1,z, 0,0,0,1⟩

/-- Modelled from the spec: `TransformComponent` (components.hpp is not among
the three source files) — "local translation/rotation/scale (or equivalent
matrix); produces a local 4x4 transform". Modelled by its equivalent matrix. -/
structure TransformComponent where
  matrix : Mat4
deriving DecidableEq

/-- Modelled from the spec: `TransformComponent::getTransform()` produces the
component's local 4x4 transform. It is a function of the component's own data
only (the component holds no parent link and no registry access). -/
def TransformComponent.getTransform (t : TransformComponent) : Mat4 := t.matrix

/-- Modelled from the spec: one grid level descriptor
(spacing, color, fade-distance start/end). -/
structure GridLevel where
  spacing : ℚ
  color : Vec3
  fadeInCameraDistanceEnd : ℚ
  fadeInCameraDistanceStart : ℚ
deriving DecidableEq

/-- Modelled from the spec: `GridComponent` — ordered level descriptors,
axis-color and line-width parameters, visibility flag. -/
structure GridComponent where
  visible : Bool
  levels : List GridLevel
  showAxes : Bool
  xAxisColor : Vec3
  zAxisColor : Vec3
  axisLineWidthPixels : ℚ
  baseLineWidthPixels : ℚ
deriving DecidableEq

/-- Modelled from the spec: `SceneProperties` — fog flag, fog color,
fog start/end distances; read by the grid pass. -/
structure SceneProperties where
  fogEnabled : Bool
  fogColor : Vec3
  fogStartDistance : ℚ
  fogEndDistance : ℚ
deriving DecidableEq

/-- Modelled from the spec: one entity of the registry with its optional
components. `parentLink` is the `ParentComponent` (a plain entity id, no
ownership); `renderable` marks a `RenderableMeshComponent`. -/
structure EntityRecord where
  eid : Nat
  transform : Option TransformComponent
  parentLink : Option Nat
  grid : Option GridComponent
  renderable : Bool
deriving DecidableEq

/-- Modelled from the spec: the entity/component registry plus the
`SceneProperties` context value. -/
structure Registry where
  entities : List EntityRecord
  props : SceneProperties
deriving DecidableEq

/-- Look an entity up by id (validity = "is this handle still live"). -/
def Registry.lookup (reg : Registry) (e : Nat) : Option EntityRecord :=
  reg.entities.find? (fun r => r.eid == e)

/-- The local transform an entity contributes: its `TransformComponent`'s
matrix, or identity if it has none. -/
def Registry.localOf (reg : Registry) (e : Nat) : Mat4 :=
  match reg.lookup e with
  | none => Mat4.idMat
  | some r =>
    match r.transform with
    | none => Mat4.idMat
    | some t => t.getTransform

/-- Modelled from the spec: transform resolution — "compute its world
transform as the product of ancestor local transforms, root-to-leaf order
(ancestor-left multiplication), i.e. `world = parentWorld * local`";
a parent reference to an invalid/destroyed entity is treated as "no parent".
The spec notes parent chains are finite (depth bounded by scene size), so the
recursion carries fuel; with fuel at least the chain depth the fuel branch is
never reached. -/
def resolveWorldTransform (reg : Registry) : Nat → Nat → Mat4
  | 0, e => reg.localOf e
  | fuel + 1, e =>
    match reg.lookup e with
    | none => Mat4.idMat
    | some r =>
      let loc : Mat4 := match r.transform with
        | none => Mat4.idMat
        | some t => t.getTransform
      match r.parentLink with
      | none => loc
      | some p =>
        if (reg.lookup p).isSome then
          Mat4.mul (resolveWorldTransform reg fuel p) loc
        else
          loc

/-- Modelled from the spec: the Camera value wrapped by `CameraComponent` —
position, orientation (yaw/pitch + look-at target + distance), a
perspective/orthographic toggle, FOV-or-orthographic scale, near/far planes. -/
structure Camera where
  position : Vec3
  target : Vec3
  yaw : ℚ
  pitch : ℚ
  distance : ℚ
  perspective : Bool
  scaleParam : ℚ
  nearPlane : ℚ
  farPlane : ℚ
deriving DecidableEq

/-- Modelled from the spec: `getViewMatrix()` is a pure function of the
camera's current orientation/position state. The floating-point look-at
formula lives in Camera code outside the three source files; the model packs
the state it depends on into the matrix so distinct states give distinct
matrices. -/
def Camera.getViewMatrix (c : Camera) : Mat4 :=
  ⟨1, c.yaw, c.pitch, -c.position.x,
   0, 1, 0, -c.position.y,
   0, 0, 1, -c.position.z,
   0, 0, 0, 1⟩

/-- Modelled from the spec: `getProjectionMatrix(aspect)` is a pure function
of projection mode, FOV/scale, near/far, and the aspect ratio supplied by
the surface each frame; a standard frustum shape over ℚ stands in for the
floating-point formula. -/
def Camera.getProjectionMatrix (c : Camera) (aspect : ℚ) : Mat4 :=
  if c.perspective then
    ⟨c.scaleParam / aspect, 0, 0, 0,
     0, c.scaleParam, 0, 0,
     0, 0, (c.farPlane + c.nearPlane) / (c.nearPlane - c.farPlane),
       2 * c.farPlane * c.nearPlane / (c.nearPlane - c.farPlane),
     0, 0, -1, 0⟩
  else
    ⟨c.scaleParam / aspect, 0, 0, 0,
     0, c.scaleParam, 0, 0,
     0, 0, -2 / (c.farPlane - c.nearPlane),
       -(c.farPlane + c.nearPlane) / (c.farPlane - c.nearPlane),
     0, 0, 0, 1⟩

/-- Modelled from the spec: orbit sensitivity, a positive scale factor. -/
def orbitSensitivity : ℚ := 1/4

/-- Modelled from the spec: pan sensitivity, a positive scale factor. -/
def panSensitivity : ℚ := 1/500

/-- Modelled from the spec: the minimum positive distance the zoom clamps to. -/
def minCameraDistance : ℚ := 1/10

/-- Modelled from the spec: `processMouseMovement(dx, dy, isPanning)` — when
not panning, rotates orbit angles by (dx, -dy) scaled by sensitivity; when
panning, translates the look-at target in the camera's local right/up plane
scaled by dx, dy and distance-to-target. -/
def Camera.processMouseMovement (c : Camera) (dx dy : ℚ) (isPanning : Bool) : Camera :=
  if isPanning then
    { c with target := ⟨c.target.x + dx * c.distance * panSensitivity,
                        c.target.y + dy * c.distance * panSensitivity,
                        c.target.z⟩ }
  else
    { c with yaw := c.yaw + dx * orbitSensitivity,
             pitch := c.pitch + (-dy) * orbitSensitivity }

/-- Modelled from the spec: `processMouseScroll(delta)` adjusts the
distance-to-target additively by delta, clamped to a minimum positive
distance; repeated positive deltas decrease the distance down to the floor. -/
def Camera.processMouseScroll (c : Camera) (delta : ℚ) : Camera :=
  { c with distance := max minCameraDistance (c.distance - delta) }

/-- The four GPU resource members of ViewportWidget
(m_gridShader, m_gridMesh, m_phongShader, m_cubeMesh):
each `std::unique_ptr` becomes an `Option`, `none` = null. -/
structure GLResources where
  gridShader : Option Unit
  gridMesh : Option Unit
  phongShader : Option Unit
  cubeMesh : Option Unit
deriving DecidableEq

/-- All four pointers null (state after cleanup, or before initialization). -/
def GLResources.allNull : GLResources := ⟨none, none, none, none⟩

/-- All four pointers set (state after a fully successful initializeGL). -/
def GLResources.ready : GLResources := ⟨some (), some (), some (), some ()⟩

/-- The widget state the claims touch: the GPU resources, the connection of
the context's destruction signal to cleanup, context validity, the redraw
timer, the camera (the required camera entity's CameraComponent, reached
through getCamera()), and m_lastMousePos. -/
structure WidgetState where
  res : GLResources
  cleanupConnected : Bool
  contextValid : Bool
  timerActive : Bool
  camera : Camera
  lastMousePos : Int × Int
deriving DecidableEq

/-- The three render passes the spec names. -/
inductive Pass
  | grid
  | mesh
  | outline
deriving DecidableEq

/-- A value uploaded through the Shader's typed uniform setters. -/
inductive UniformValue
  | mat (m : Mat4)
  | vec (v : Vec3)
  | flt (q : ℚ)
  | int (n : Int)
  | bool (b : Bool)
deriving DecidableEq

/-- One GPU command issued during paintGL, tagged with the pass whose shader
is bound when it executes. -/
inductive RenderCmd
  | useShader (p : Pass)
  | setUniform (p : Pass) (name : String) (v : UniformValue)
  | draw (p : Pass)
deriving DecidableEq

/-- The pass a command belongs to. -/
def RenderCmd.pass : RenderCmd → Pass
  | .useShader p => p
  | .setUniform p _ _ => p
  | .draw p => p

/-- Line 126 of paintGL: `aspect = (height() > 0) ? width()/height() : 1.0f`. -/
def paintAspect (w h : Int) : ℚ :=
  if 0 < h then (w : ℚ) / (h : ℚ) else 1

/-- The projection matrix paintGL computes for the frame, line 128: the
camera's getProjectionMatrix applied to the guarded aspect ratio. -/
def frameProjection (cam : Camera) (w h : Int) : Mat4 :=
  cam.getProjectionMatrix (paintAspect w h)

/-- The per-level uniform uploads of the loop at lines 153-159. -/
def gridLevelCmds (i : Nat) (lv : GridLevel) : List RenderCmd :=
  let base := "u_levels[" ++ toString i ++ "]."
  [ .setUniform .grid (base ++ "spacing") (.flt lv.spacing),
    .setUniform .grid (base ++ "color") (.vec lv.color),
    .setUniform .grid (base ++ "fadeInCameraDistanceEnd") (.flt lv.fadeInCameraDistanceEnd),
    .setUniform .grid (base ++ "fadeInCameraDistanceStart") (.flt lv.fadeInCameraDistanceStart) ]

/-- The grid view's per-entity lambda, lines 146-166: invisible grids return
before any upload; visible grids upload the model matrix, the level array
and the axis/line parameters, then draw. -/
def gridEntityCmds (t : TransformComponent) (g : GridComponent) : List RenderCmd :=
  if !g.visible then []
  else
    [ .setUniform .grid "u_gridModelMatrix" (.mat t.getTransform),
      .setUniform .grid "u_numLevels" (.int (g.levels.length : Int)) ]
    ++ List.flatten ((g.levels.enum.map fun p => gridLevelCmds p.1 p.2))
    ++ [ .setUniform .grid "u_showAxes" (.bool g.showAxes),
         .setUniform .grid "u_xAxisColor" (.vec g.xAxisColor),
         .setUniform .grid "u_zAxisColor" (.vec g.zAxisColor),
         .setUniform .grid "u_axisLineWidthPixels" (.flt g.axisLineWidthPixels),
         .setUniform .grid "u_baseLineWidthPixels" (.flt g.baseLineWidthPixels),
         .draw .grid ]

/-- registry.view<const TransformComponent, const GridComponent> — the
entities owning both components, in registry order. -/
def Registry.gridEntries (reg : Registry) : List (TransformComponent × GridComponent) :=
  reg.entities.filterMap fun r =>
    match r.transform, r.grid with
    | some t, some g => some (t, g)
    | _, _ => none

/-- registry.view<const TransformComponent, const RenderableMeshComponent>. -/
def Registry.meshEntries (reg : Registry) : List TransformComponent :=
  reg.entities.filterMap fun r =>
    match r.transform, r.renderable with
    | some t, true => some t
    | _, _ => none

/-- The grid pass, lines 133-167: guarded by the null checks on
m_gridShader and m_gridMesh; binds the grid shader, uploads the per-pass
uniforms once, then runs the per-entity lambda over the grid view. -/
def gridPassCmds (res : GLResources) (cam : Camera) (reg : Registry) (w h : Int) :
    List RenderCmd :=
  if res.gridShader.isSome && res.gridMesh.isSome then
    [ .useShader .grid,
      .setUniform .grid "u_viewMatrix" (.mat cam.getViewMatrix),
      .setUniform .grid "u_projectionMatrix" (.mat (frameProjection cam w h)),
      .setUniform .grid "u_cameraPos" (.vec cam.position),
      .setUniform .grid "u_cameraDistanceToFocal" (.flt cam.distance),
      .setUniform .grid "u_useFog" (.bool reg.props.fogEnabled),
      .setUniform .grid "u_fogColor" (.vec reg.props.fogColor),
      .setUniform .grid "u_fogStartDistance" (.flt reg.props.fogStartDistance),
      .setUniform .grid "u_fogEndDistance" (.flt reg.props.fogEndDistance) ]
    ++ List.flatten (reg.gridEntries.map fun p => gridEntityCmds p.1 p.2)
  else []

/-- The mesh view's per-entity lambda, lines 176-179. -/
def meshEntityCmds (t : TransformComponent) : List RenderCmd :=
  [ .setUniform .mesh "model" (.mat t.getTransform), .draw .mesh ]

/-- The mesh pass, lines 170-180: guarded by the null checks on
m_phongShader and m_cubeMesh. -/
def meshPassCmds (res : GLResources) (cam : Camera) (reg : Registry) (w h : Int) :
    List RenderCmd :=
  if res.phongShader.isSome && res.cubeMesh.isSome then
    [ .useShader .mesh,
      .setUniform .mesh "view" (.mat cam.getViewMatrix),
      .setUniform .mesh "projection" (.mat (frameProjection cam w h)) ]
    ++ List.flatten (reg.meshEntries.map meshEntityCmds)
  else []

/-- paintGL, lines 118-183: after the clear and the (constructor-asserted)
scene check, the grid pass runs, then the mesh pass; no other pass exists in
the function. `w`, `h` are the widget's width()/height(). -/
def paintGL (res : GLResources) (cam : Camera) (reg : Registry) (w h : Int) :
    List RenderCmd :=
  gridPassCmds res cam reg w h ++ meshPassCmds res cam reg w h

/-- resizeGL, lines 185-188: non-positive dimensions return before
glViewport; otherwise glViewport(0, 0, w, h). The stored pair is the
glViewport rectangle, the only state resizeGL writes. -/
def resizeGL (w h : Int) (viewport : Int × Int) : Int × Int :=
  if w ≤ 0 ∨ h ≤ 0 then viewport else (w, h)

/-- The externally visible calls an input-event handler makes: forwarding to
the camera, and update() (the redraw request). -/
inductive WidgetEffect
  | camScroll (delta : ℚ)
  | camMove (dx dy : ℚ) (isPanning : Bool)
  | requestUpdate
deriving DecidableEq

/-- The mouse buttons the handlers test (Qt::LeftButton, Qt::MiddleButton). -/
structure MouseButtons where
  left : Bool
  middle : Bool
deriving DecidableEq

/-- mousePressEvent, lines 190-193: records the reference cursor position. -/
def mousePressEvent (pos : Int × Int) (s : WidgetState) : WidgetState :=
  { s with lastMousePos := pos }

/-- mouseMoveEvent, lines 195-207: deltas against m_lastMousePos; if the
left (orbit) or middle (pan) button is held, forward
processMouseMovement(dx, -dy, isPanning) and request a redraw; in every case
store the event position as the new reference. -/
def mouseMoveEvent (pos : Int × Int) (b : MouseButtons) (s : WidgetState) :
    WidgetState × List WidgetEffect :=
  let dx : ℚ := ((pos.1 - s.lastMousePos.1 : Int) : ℚ)
  let dy : ℚ := ((pos.2 - s.lastMousePos.2 : Int) : ℚ)
  let isPanning := b.middle
  let isOrbiting := b.left
  if isOrbiting || isPanning then
    ({ s with camera := s.camera.processMouseMovement dx (-dy) isPanning,
              lastMousePos := pos },
     [.camMove dx (-dy) isPanning, .requestUpdate])
  else
    ({ s with lastMousePos := pos }, [])

/-- wheelEvent, lines 209-213: forward processMouseScroll(angleDelta.y() /
120.0f), then update(). -/
def wheelEvent (angleDeltaY : Int) (s : WidgetState) : WidgetState × List WidgetEffect :=
  ({ s with camera := s.camera.processMouseScroll ((angleDeltaY : ℚ) / 120) },
   [.camScroll ((angleDeltaY : ℚ) / 120), .requestUpdate])

/-- Observable context/lifecycle events of cleanup and context teardown. -/
inductive GLEvent
  | makeCurrentEv
  | release (name : String)
  | doneCurrentEv
  | contextInvalidated
deriving DecidableEq

/-- Model of `unique_ptr::reset()`: releases the owned resource if there is one,
nothing otherwise. -/
def resetEvents (name : String) : Option Unit → List GLEvent
  | some _ => [.release name]
  | none => []

/-- The releases cleanup performs, in source order (lines 48-51). -/
def releaseList (r : GLResources) : List GLEvent :=
  resetEvents "m_gridShader" r.gridShader ++ resetEvents "m_gridMesh" r.gridMesh
    ++ resetEvents "m_phongShader" r.phongShader ++ resetEvents "m_cubeMesh" r.cubeMesh

/-- cleanup, lines 43-53: makeCurrent(), reset the four resource pointers,
doneCurrent(). Returns the new state and the events the call emits. -/
def cleanup (s : WidgetState) : WidgetState × List GLEvent :=
  ({ s with res := GLResources.allNull },
   [GLEvent.makeCurrentEv] ++ releaseList s.res ++ [GLEvent.doneCurrentEv])

/-- Outcome environment for the constructions in initializeGL's try block:
whether each construction (shader compile/link, mesh build) succeeds or
throws (compile/link error, missing file). -/
structure InitEnv where
  gridShaderOk : Bool
  phongShaderOk : Bool
  gridMeshOk : Bool
  cubeMeshOk : Bool
deriving DecidableEq

/-- The try/catch of initializeGL, lines 79-110: constructions run in source
order (grid shader, phong shader, grid mesh, cube mesh); the first throw
aborts the rest of the block and lands in the single catch, which logs one
critical message and returns normally. Result: the resource pointers and the
number of critical messages logged. -/
def initResources (env : InitEnv) : GLResources × Nat :=
  if !env.gridShaderOk then (⟨none, none, none, none⟩, 1)
  else if !env.phongShaderOk then (⟨some (), none, none, none⟩, 1)
  else if !env.gridMeshOk then (⟨some (), none, some (), none⟩, 1)
  else if !env.cubeMeshOk then (⟨some (), some (), some (), none⟩, 1)
  else (GLResources.ready, 0)

/-- initializeGL, lines 66-116: connect the context's aboutToBeDestroyed
signal to cleanup with Qt::DirectConnection, run the guarded resource
constructions, start the 60 Hz redraw timer. -/
def initializeGL (env : InitEnv) (s : WidgetState) : WidgetState × Nat :=
  ({ s with cleanupConnected := true, res := (initResources env).1, timerActive := true },
   (initResources env).2)

/-- Modelled from the spec: the toolkit's context-teardown protocol — the
context emits aboutToBeDestroyed, slots connected with Qt::DirectConnection
run synchronously during the emission, and only after the emission returns
does the context handle become invalid. -/
def destroyContext (s : WidgetState) : WidgetState × List GLEvent :=
  if s.cleanupConnected then
    ({ (cleanup s).1 with contextValid := false },
     (cleanup s).2 ++ [GLEvent.contextInvalidated])
  else
    ({ s with contextValid := false }, [GLEvent.contextInvalidated])

/-- The uniform names that carry a model matrix: "u_gridModelMatrix"
(grid pass, line 150) and "model" (mesh pass, line 177). -/
def isModelUniformName (n : String) : Bool :=
  n == "u_gridModelMatrix" || n == "model"

/-- The model matrix in effect at each draw call of a command list, walking
the list with the last model-matrix upload as carry (a draw before any
upload records nothing). -/
def drawnModelsFrom : Option Mat4 → List RenderCmd → List Mat4
  | _, [] => []
  | cur, RenderCmd.setUniform _ n (UniformValue.mat m) :: rest =>
    drawnModelsFrom (if isModelUniformName n then some m else cur) rest
  | cur, RenderCmd.draw _ :: rest =>
    (match cur with | some m => [m] | none => []) ++ drawnModelsFrom cur rest
  | cur, _ :: rest => drawnModelsFrom cur rest

/-- The model matrices of a frame's draw calls, in draw order. -/
def drawnModelMatrices (cmds : List RenderCmd) : List Mat4 :=
  drawnModelsFrom none cmds

/-- The model-matrix carry a command list leaves behind: the value of the
last model-matrix upload in it, or the incoming carry if it has none. -/
def modelCarry : Option Mat4 → List RenderCmd → Option Mat4
  | cur, [] => cur
  | cur, RenderCmd.setUniform _ n (UniformValue.mat m) :: rest =>
    modelCarry (if isModelUniformName n then some m else cur) rest
  | cur, _ :: rest => modelCarry cur rest

/-- A command that neither draws nor uploads any matrix uniform: it can
change neither the drawn-model list nor the model-matrix carry. -/
def neutralCmd : RenderCmd → Bool
  | RenderCmd.draw _ => false
  | RenderCmd.setUniform _ _ (UniformValue.mat _) => false
  | _ => true

/-- Whether a lifecycle event is a resource release. -/
def isReleaseEv : GLEvent → Bool
  | GLEvent.release _ => true
  | _ => false

/-- Fog-off scene properties for the concrete scenarios. -/
def defaultProps : SceneProperties := ⟨false, ⟨0, 0, 0⟩, 10, 100⟩

/-- A concrete camera for the concrete scenarios. -/
def defaultCamera : Camera :=
  ⟨⟨0, 2, 5⟩, ⟨0, 0, 0⟩, 0, 0, 5, true, 1, 1/10, 100⟩

/-- The scene of the spec's scenario: root entity 0 with identity local
transform, child entity 1 with local translation (1,0,0) parented to the
root and drawn in the mesh pass. -/
def sceneIdentityRoot : Registry :=
  ⟨[⟨0, some ⟨Mat4.idMat⟩, none, none, false⟩,
    ⟨1, some ⟨Mat4.translationBy 1 0 0⟩, some 0, none, true⟩], defaultProps⟩

/-- A scene whose drawn child has a non-identity ancestor: root entity 0
with local translation (2,0,0), child entity 1 with identity local
transform, parented to the root and drawn in the mesh pass. -/
def sceneShiftedRoot : Registry :=
  ⟨[⟨0, some ⟨Mat4.translationBy 2 0 0⟩, none, none, false⟩,
    ⟨1, some ⟨Mat4.idMat⟩, some 0, none, true⟩], defaultProps⟩

/-- An invisible grid component with otherwise arbitrary parameters. -/
def hiddenGrid : GridComponent :=
  ⟨false, [⟨1, ⟨1/2, 1/2, 1/2⟩, 30, 10⟩], true, ⟨1, 0, 0⟩, ⟨0, 0, 1⟩, 2, 1⟩

/-- The init environment in which the grid shader construction throws
(e.g. a missing shader file) while every construction after it would have
succeeded. -/
def gridShaderFails : InitEnv := ⟨false, true, true, true⟩

/-- The init environment in which every construction succeeds. -/
def allOkEnv : InitEnv := ⟨true, true, true, true⟩

/-- A concrete widget state for witnesses: initialized, idle. -/
def idleWidgetState : WidgetState :=
  ⟨GLResources.ready, true, true, true, defaultCamera, (5, 6)⟩

/-! Helper lemmas shared by the claim theorems. -/

theorem mem_resetEvents (name : String) (o : Option Unit) (e : GLEvent)
    (he : e ∈ resetEvents name o) : e = GLEvent.release name := by
  cases o with
  | none => simp [resetEvents] at he
  | some u => simpa [resetEvents] using he

theorem mem_releaseList (r : GLResources) (e : GLEvent) (he : e ∈ releaseList r) :
    ∃ n, e = GLEvent.release n := by
  unfold releaseList at he
  rcases List.mem_append.mp he with h | h
  · rcases List.mem_append.mp h with h2 | h2
    · rcases List.mem_append.mp h2 with h3 | h3
      · exact ⟨_, mem_resetEvents _ _ _ h3⟩
      · exact ⟨_, mem_resetEvents _ _ _ h3⟩
    · exact ⟨_, mem_resetEvents _ _ _ h2⟩
  · exact ⟨_, mem_resetEvents _ _ _ h⟩

/-- Claim C3 (confirmed): the cleanup transition is idempotent — a second
invocation produces the same end state as the first and performs no release
side effect, since every resource pointer is already null after the first
invocation and resetting a null pointer frees nothing. -/
theorem c3_cleanup_idempotent (s : WidgetState) :
    (cleanup (cleanup s).1).1 = (cleanup s).1 ∧
    ((cleanup (cleanup s).1).2).filter isReleaseEv = [] := by
  constructor
  · simp [cleanup]
  · simp [cleanup, GLResources.allNull, releaseList, resetEvents, isReleaseEv]

/-- Claim C4 (confirmed): after initializeGL has connected the context's
aboutToBeDestroyed signal to cleanup with Qt::DirectConnection, destroying
the context first runs cleanup synchronously — makeCurrent, the releases of
every owned resource, doneCurrent — and only then invalidates the context
handle; at the end every resource pointer is null and the context is
invalid, so no release happens after the handle becomes invalid. -/
theorem c4_cleanup_before_context_destroyed (env : InitEnv) (s : WidgetState) :
    (destroyContext (initializeGL env s).1).2 =
      [GLEvent.makeCurrentEv] ++ releaseList (initializeGL env s).1.res
        ++ [GLEvent.doneCurrentEv, GLEvent.contextInvalidated] ∧
    (∀ e ∈ releaseList (initializeGL env s).1.res, ∃ n, e = GLEvent.release n) ∧
    (destroyContext (initializeGL env s).1).1.res = GLResources.allNull ∧
    (destroyContext (initializeGL env s).1).1.contextValid = false := by
  refine ⟨?_, ?_, ?_, ?_⟩
  · simp [destroyContext, initializeGL, cleanup]
  · intro e he
    exact mem_releaseList _ e he
  · simp [destroyContext, initializeGL, cleanup]
  · simp [destroyContext, initializeGL, cleanup]

/-- Claim C6 (confirmed): the aspect ratio paintGL computes equals
width/height when the height is positive (the divisor then being nonzero)
and defaults to 1 otherwise, and the frame's projection matrix is the
camera's getProjectionMatrix applied to exactly that guarded value. -/
theorem c6_aspect_guard (w h : Int) (cam : Camera) :
    (0 < h → paintAspect w h = (w : ℚ) / (h : ℚ) ∧ ((h : ℚ) ≠ 0)) ∧
    (h ≤ 0 → paintAspect w h = 1) ∧
    frameProjection cam w h = cam.getProjectionMatrix (paintAspect w h) := by
  refine ⟨?_, ?_, rfl⟩
  · intro h0
    refine ⟨by simp [paintAspect, h0], ?_⟩
    exact_mod_cast h0.ne'
  · intro h0
    simp [paintAspect, not_lt.mpr h0]

/-- Witness for C6 at (w, h) = (16, 9). -/
theorem c6_aspect_guard_witness :
    (0 : Int) < 9 ∧ paintAspect 16 9 = (16 : ℚ) / 9 :=
  ⟨by norm_num, ((c6_aspect_guard 16 9 defaultCamera).1 (by norm_num)).1⟩

/-- Claim C7 (confirmed): a resize with a non-positive width or height
returns before touching the stored viewport rectangle (a no-op, no division
anywhere in resizeGL), and a resize with both dimensions positive stores
exactly (w, h). -/
theorem c7_resize_guard (w h : Int) (vp : Int × Int) :
    (w ≤ 0 ∨ h ≤ 0 → resizeGL w h vp = vp) ∧
    (0 < w → 0 < h → resizeGL w h vp = (w, h)) := by
  constructor
  · intro hd
    simp [resizeGL, hd]
  · intro hw hh
    have hd : ¬(w ≤ 0 ∨ h ≤ 0) := by
      push_neg
      exact ⟨hw, hh⟩
    simp [resizeGL, hd]

/-- Witness for C7: resizing to (0, 0) leaves the stored viewport (800, 600). -/
theorem c7_resize_guard_witness :
    (0 : Int) ≤ 0 ∧ resizeGL 0 0 (800, 600) = (800, 600) :=
  ⟨le_refl 0, (c7_resize_guard 0 0 (800, 600)).1 (Or.inl (le_refl 0))⟩

/-- Claim C8 (confirmed): the grid pass's per-entity lambda returns before
any upload when the grid's visible flag is false — the entity contributes
zero uniform sets and zero draw calls. -/
theorem c8_invisible_grid_skipped (t : TransformComponent) (g : GridComponent)
    (hv : g.visible = false) : gridEntityCmds t g = [] := by
  simp [gridEntityCmds, hv]

/-- Witness for C8 on a concrete invisible grid component. -/
theorem c8_invisible_grid_skipped_witness :
    hiddenGrid.visible = false ∧ gridEntityCmds ⟨Mat4.idMat⟩ hiddenGrid = [] :=
  ⟨rfl, c8_invisible_grid_skipped ⟨Mat4.idMat⟩ hiddenGrid rfl⟩

/-- Claim C9 (confirmed): every wheel event forwards angleDelta.y()/120 to
the camera's zoom operation and then requests a redraw; multiplying the
forwarded delta by one notch (120) recovers the raw delta. -/
theorem c9_wheel_normalized (y : Int) (s : WidgetState) :
    (wheelEvent y s).2 = [WidgetEffect.camScroll ((y : ℚ) / 120), WidgetEffect.requestUpdate] ∧
    (wheelEvent y s).1.camera = s.camera.processMouseScroll ((y : ℚ) / 120) ∧
    ((y : ℚ) / 120) * 120 = (y : ℚ) := by
  refine ⟨rfl, rfl, ?_⟩
  field_simp

/-- Claim C10 (confirmed): a mouse move with neither the orbit (left) nor
the pan (middle) button held leaves the camera untouched and requests no
redraw, yet still stores the event position as the new reference cursor
position, so the next drag measures its delta from the most recent
position. -/
theorem c10_idle_mouse_move (pos : Int × Int) (b : MouseButtons) (s : WidgetState)
    (hl : b.left = false) (hm : b.middle = false) :
    mouseMoveEvent pos b s = ({ s with lastMousePos := pos }, []) ∧
    (mouseMoveEvent pos b s).1.camera = s.camera ∧
    (mouseMoveEvent pos b s).1.lastMousePos = pos := by
  have h : mouseMoveEvent pos b s = ({ s with lastMousePos := pos }, []) := by
    simp [mouseMoveEvent, hl, hm]
  exact ⟨h, by rw [h], by rw [h]⟩

/-- Witness for C10 at a concrete event and state. -/
theorem c10_idle_mouse_move_witness :
    mouseMoveEvent (3, 4) ⟨false, false⟩ idleWidgetState =
      ({ idleWidgetState with lastMousePos := (3, 4) }, []) :=
  (c10_idle_mouse_move (3, 4) ⟨false, false⟩ idleWidgetState rfl rfl).1

theorem gridLevelCmds_pass (i : Nat) (lv : GridLevel) :
    ∀ c ∈ gridLevelCmds i lv, c.pass = Pass.grid := by
  intro c hc
  simp [gridLevelCmds] at hc
  rcases hc with h | h | h | h <;> subst h <;> rfl

theorem gridEntityCmds_pass (t : TransformComponent) (g : GridComponent) :
    ∀ c ∈ gridEntityCmds t g, c.pass = Pass.grid := by
  intro c hc
  unfold gridEntityCmds at hc
  split at hc
  · simp at hc
  · rcases List.mem_append.mp hc with h | h
    · rcases List.mem_append.mp h with h2 | h2
      · simp at h2
        rcases h2 with h3 | h3 <;> subst h3 <;> rfl
      · rcases List.mem_flatten.mp h2 with ⟨l, hl, hcl⟩
        rcases List.mem_map.mp hl with ⟨p, _, rfl⟩
        exact gridLevelCmds_pass p.1 p.2 c hcl
    · simp at h
      rcases h with h3 | h3 | h3 | h3 | h3 | h3 <;> subst h3 <;> rfl

theorem meshEntityCmds_pass (t : TransformComponent) :
    ∀ c ∈ meshEntityCmds t, c.pass = Pass.mesh := by
  intro c hc
  simp [meshEntityCmds] at hc
  rcases hc with h | h <;> subst h <;> rfl

theorem gridPassCmds_pass (res : GLResources) (cam : Camera) (reg : Registry) (w h : Int) :
    ∀ c ∈ gridPassCmds res cam reg w h, c.pass = Pass.grid := by
  intro c hc
  unfold gridPassCmds at hc
  split at hc
  · rcases List.mem_append.mp hc with h2 | h2
    · simp at h2
      rcases h2 with h3 | h3 | h3 | h3 | h3 | h3 | h3 | h3 | h3 <;> subst h3 <;> rfl
    · rcases List.mem_flatten.mp h2 with ⟨l, hl, hcl⟩
      rcases List.mem_map.mp hl with ⟨p, _, rfl⟩
      exact gridEntityCmds_pass p.1 p.2 c hcl
  · simp at hc

theorem meshPassCmds_pass (res : GLResources) (cam : Camera) (reg : Registry) (w h : Int) :
    ∀ c ∈ meshPassCmds res cam reg w h, c.pass = Pass.mesh := by
  intro c hc
  unfold meshPassCmds at hc
  split at hc
  · rcases List.mem_append.mp hc with h2 | h2
    · simp at h2
      rcases h2 with h3 | h3 | h3 <;> subst h3 <;> rfl
    · rcases List.mem_flatten.mp h2 with ⟨l, hl, hcl⟩
      rcases List.mem_map.mp hl with ⟨tc, _, rfl⟩
      exact meshEntityCmds_pass tc c hcl
  · simp at hc

/-- Claim C2 (corrected): every frame renders exactly two strictly ordered
passes — the trace is the grid-pass segment followed by the mesh-pass
segment, so no command of a later pass precedes a command of an earlier
pass — and no outline-pass command exists anywhere in the trace. -/
theorem c2_two_ordered_passes (res : GLResources) (cam : Camera) (reg : Registry) (w h : Int) :
    paintGL res cam reg w h = gridPassCmds res cam reg w h ++ meshPassCmds res cam reg w h ∧
    (∀ c ∈ gridPassCmds res cam reg w h, c.pass = Pass.grid) ∧
    (∀ c ∈ meshPassCmds res cam reg w h, c.pass = Pass.mesh) ∧
    (∀ c ∈ paintGL res cam reg w h, c.pass ≠ Pass.outline) := by
  refine ⟨rfl, gridPassCmds_pass res cam reg w h, meshPassCmds_pass res cam reg w h, ?_⟩
  intro c hc
  unfold paintGL at hc
  rcases List.mem_append.mp hc with h2 | h2
  · rw [gridPassCmds_pass res cam reg w h c h2]
    simp
  · rw [meshPassCmds_pass res cam reg w h c h2]
    simp

/-- Counterexample to C2 as stated: a concrete frame whose trace is
nonempty (both existing passes run and draw) yet contains not a single
outline-pass command — paintGL has no outline pass at all. -/
theorem c2_counterexample :
    (paintGL GLResources.ready defaultCamera sceneIdentityRoot 800 600).filter
        (fun c => c.pass == Pass.outline) = [] ∧
    paintGL GLResources.ready defaultCamera sceneIdentityRoot 800 600 ≠ [] := by
  constructor
  · simp [paintGL, gridPassCmds, meshPassCmds, GLResources.ready, sceneIdentityRoot,
      Registry.gridEntries, Registry.meshEntries, gridEntityCmds, meshEntityCmds,
      defaultProps, RenderCmd.pass]
  · simp [paintGL, gridPassCmds, meshPassCmds, GLResources.ready]

/-- Claim C5 (corrected): a construction failure in initializeGL is caught
by the single catch block (initialization returns normally) and logged
exactly once; but since one try block wraps all four constructions in the
order grid shader, phong shader, grid mesh, cube mesh, the failed resource
AND every resource constructed after it remain unset, and the null checks
skip every pass one of whose two resources is unset — in particular a
grid-shader failure also empties the whole frame, mesh pass included. -/
theorem c5_init_failure_cascade (env : InitEnv) :
    ((initResources env).2 =
      if env.gridShaderOk && env.phongShaderOk && env.gridMeshOk && env.cubeMeshOk
      then 0 else 1) ∧
    ((initResources env).1.gridShader.isSome = env.gridShaderOk) ∧
    ((initResources env).1.phongShader.isSome = (env.gridShaderOk && env.phongShaderOk)) ∧
    ((initResources env).1.gridMesh.isSome
      = (env.gridShaderOk && env.phongShaderOk && env.gridMeshOk)) ∧
    ((initResources env).1.cubeMesh.isSome
      = (env.gridShaderOk && env.phongShaderOk && env.gridMeshOk && env.cubeMeshOk)) ∧
    (∀ (cam : Camera) (reg : Registry) (w hh : Int), env.gridShaderOk = false →
      paintGL (initResources env).1 cam reg w hh = []) := by
  obtain ⟨a, b, c, d⟩ := env
  cases a <;> cases b <;> cases c <;> cases d <;>
    simp [initResources, paintGL, gridPassCmds, meshPassCmds, GLResources.ready]

/-- Witness for C5's amended statement at the environment where the grid
shader construction fails: one message logged, and the whole frame trace of
a concrete scene is empty. -/
theorem c5_init_failure_cascade_witness :
    (initResources gridShaderFails).2 = 1 ∧
    (initResources gridShaderFails).1.phongShader.isSome = false ∧
    paintGL (initResources gridShaderFails).1 defaultCamera sceneIdentityRoot 800 600 = [] := by
  have h := c5_init_failure_cascade gridShaderFails
  refine ⟨?_, ?_, h.2.2.2.2.2 defaultCamera sceneIdentityRoot 800 600 rfl⟩
  · simpa [gridShaderFails] using h.1
  · simpa [gridShaderFails] using h.2.2.1

/-- Counterexample to C5 as stated: with only the grid shader construction
failing — the mesh pass's own shader and mesh constructions would have
succeeded — the phong shader and cube mesh pointers are nevertheless unset
(the throw aborted the rest of the try block) and the mesh pass is also
skipped on a scene that contains a renderable mesh entity, contradicting
"the null checks in the render path skip exactly that pass". -/
theorem c5_counterexample :
    gridShaderFails.phongShaderOk = true ∧
    gridShaderFails.cubeMeshOk = true ∧
    (initResources gridShaderFails).1.phongShader = none ∧
    (initResources gridShaderFails).1.cubeMesh = none ∧
    meshPassCmds (initResources gridShaderFails).1 defaultCamera sceneIdentityRoot 800 600
      = [] ∧
    sceneIdentityRoot.meshEntries ≠ [] := by
  refine ⟨rfl, rfl, ?_, ?_, ?_, ?_⟩
  · simp [initResources, gridShaderFails]
  · simp [initResources, gridShaderFails]
  · simp [initResources, gridShaderFails, meshPassCmds]
  · simp [Registry.meshEntries, sceneIdentityRoot, defaultProps]

theorem drawnModelsFrom_append (xs : List RenderCmd) :
    ∀ (cur : Option Mat4) (ys : List RenderCmd),
      drawnModelsFrom cur (xs ++ ys) =
        drawnModelsFrom cur xs ++ drawnModelsFrom (modelCarry cur xs) ys := by
  induction xs with
  | nil =>
    intro cur ys
    simp [drawnModelsFrom, modelCarry]
  | cons a xs ih =>
    intro cur ys
    cases a with
    | useShader p => simpa [drawnModelsFrom, modelCarry] using ih cur ys
    | draw p => simp [drawnModelsFrom, modelCarry, ih cur ys]
    | setUniform p n v =>
      cases v with
      | mat m =>
        simpa [drawnModelsFrom, modelCarry]
          using ih (if isModelUniformName n then some m else cur) ys
      | vec v0 => simpa [drawnModelsFrom, modelCarry] using ih cur ys
      | flt q => simpa [drawnModelsFrom, modelCarry] using ih cur ys
      | int n0 => simpa [drawnModelsFrom, modelCarry] using ih cur ys
      | bool b0 => simpa [drawnModelsFrom, modelCarry] using ih cur ys

theorem modelCarry_append (xs : List RenderCmd) :
    ∀ (cur : Option Mat4) (ys : List RenderCmd),
      modelCarry cur (xs ++ ys) = modelCarry (modelCarry cur xs) ys := by
  induction xs with
  | nil =>
    intro cur ys
    simp [modelCarry]
  | cons a xs ih =>
    intro cur ys
    cases a with
    | useShader p => simpa [modelCarry] using ih cur ys
    | draw p => simpa [modelCarry] using ih cur ys
    | setUniform p n v =>
      cases v with
      | mat m =>
        simpa [modelCarry] using ih (if isModelUniformName n then some m else cur) ys
      | vec v0 => simpa [modelCarry] using ih cur ys
      | flt q => simpa [modelCarry] using ih cur ys
      | int n0 => simpa [modelCarry] using ih cur ys
      | bool b0 => simpa [modelCarry] using ih cur ys

theorem neutral_cmds : ∀ (L : List RenderCmd), (∀ c ∈ L, neutralCmd c = true) →
    ∀ (cur : Option Mat4), drawnModelsFrom cur L = [] ∧ modelCarry cur L = cur := by
  intro L
  induction L with
  | nil =>
    intro _ cur
    simp [drawnModelsFrom, modelCarry]
  | cons a L ih =>
    intro hL cur
    have ha : neutralCmd a = true := hL a (List.mem_cons_self a L)
    have hL2 : ∀ c ∈ L, neutralCmd c = true := fun c hc => hL c (List.mem_cons_of_mem a hc)
    cases a with
    | useShader p => simpa [drawnModelsFrom, modelCarry] using ih hL2 cur
    | draw p => simp [neutralCmd] at ha
    | setUniform p n v =>
      cases v with
      | mat m => simp [neutralCmd] at ha
      | vec v0 => simpa [drawnModelsFrom, modelCarry] using ih hL2 cur
      | flt q => simpa [drawnModelsFrom, modelCarry] using ih hL2 cur
      | int n0 => simpa [drawnModelsFrom, modelCarry] using ih hL2 cur
      | bool b0 => simpa [drawnModelsFrom, modelCarry] using ih hL2 cur

theorem gridLevelCmds_neutral (i : Nat) (lv : GridLevel) :
    ∀ c ∈ gridLevelCmds i lv, neutralCmd c = true := by
  intro c hc
  simp [gridLevelCmds] at hc
  rcases hc with h | h | h | h <;> subst h <;> rfl

theorem gridLevels_flatten_neutral (lvls : List (Nat × GridLevel)) :
    ∀ c ∈ List.flatten (lvls.map fun p => gridLevelCmds p.1 p.2), neutralCmd c = true := by
  intro c hc
  rcases List.mem_flatten.mp hc with ⟨l, hl, hcl⟩
  rcases List.mem_map.mp hl with ⟨p, _, rfl⟩
  exact gridLevelCmds_neutral p.1 p.2 c hcl

theorem gridEntityCmds_drawn (t : TransformComponent) (g : GridComponent) (cur : Option Mat4) :
    drawnModelsFrom cur (gridEntityCmds t g) =
      (if g.visible then [t.getTransform] else []) := by
  by_cases hv : g.visible
  · rw [if_pos hv]
    have hF := neutral_cmds _ (gridLevels_flatten_neutral g.levels.enum) (some t.getTransform)
    unfold gridEntityCmds
    rw [if_neg (by simp [hv])]
    rw [drawnModelsFrom_append, drawnModelsFrom_append, modelCarry_append]
    simp [drawnModelsFrom, modelCarry, isModelUniformName, hF.1, hF.2]
  · rw [if_neg hv]
    simp [gridEntityCmds, hv, drawnModelsFrom]

theorem meshEntityCmds_drawn (t : TransformComponent) (cur : Option Mat4) :
    drawnModelsFrom cur (meshEntityCmds t) = [t.getTransform] := by
  simp [meshEntityCmds, drawnModelsFrom, isModelUniformName]

theorem gridEntries_drawn :
    ∀ (es : List (TransformComponent × GridComponent)) (cur : Option Mat4),
      drawnModelsFrom cur (List.flatten (es.map fun p => gridEntityCmds p.1 p.2)) =
        es.filterMap fun p => if p.2.visible then some p.1.getTransform else none := by
  intro es
  induction es with
  | nil =>
    intro cur
    simp [drawnModelsFrom]
  | cons a es ih =>
    intro cur
    simp only [List.map_cons, List.flatten_cons]
    rw [drawnModelsFrom_append, gridEntityCmds_drawn, ih]
    by_cases hv : a.2.visible
    · simp [hv, List.filterMap_cons]
    · simp [hv, List.filterMap_cons]

theorem meshEntries_drawn :
    ∀ (es : List TransformComponent) (cur : Option Mat4),
      drawnModelsFrom cur (List.flatten (es.map meshEntityCmds)) =
        es.map fun t => t.getTransform := by
  intro es
  induction es with
  | nil =>
    intro cur
    simp [drawnModelsFrom]
  | cons a es ih =>
    intro cur
    simp only [List.map_cons, List.flatten_cons]
    rw [drawnModelsFrom_append, meshEntityCmds_drawn, ih]
    simp

theorem paintGL_drawn (cam : Camera) (reg : Registry) (w h : Int) :
    drawnModelMatrices (paintGL GLResources.ready cam reg w h) =
      (reg.gridEntries.filterMap fun p => if p.2.visible then some p.1.getTransform else none)
        ++ reg.meshEntries.map fun t => t.getTransform := by
  simp [drawnModelMatrices, paintGL, gridPassCmds, meshPassCmds, GLResources.ready,
    drawnModelsFrom, drawnModelsFrom_append, modelCarry_append, modelCarry,
    isModelUniformName, gridEntries_drawn, meshEntries_drawn]

/-- Claim C1 (corrected): the model matrix set before every grid-pass or
mesh-pass draw call is the entity's OWN local transform
(TransformComponent::getTransform()); no parent-chain resolution happens in
the render path, so it equals the spec's world transform only when every
proper ancestor contributes identity. In particular the claim's scenario —
identity root, child locally translated by (1,0,0) — does draw the child
with model matrix translation (1,0,0), which equals its world transform. -/
theorem c1_model_is_local (cam : Camera) (reg : Registry) (w h : Int) :
    drawnModelMatrices (paintGL GLResources.ready cam reg w h) =
      (reg.gridEntries.filterMap fun p => if p.2.visible then some p.1.getTransform else none)
        ++ reg.meshEntries.map (fun t => t.getTransform) ∧
    drawnModelMatrices (paintGL GLResources.ready defaultCamera sceneIdentityRoot 800 600) =
      [Mat4.translationBy 1 0 0] ∧
    resolveWorldTransform sceneIdentityRoot 2 1 = Mat4.translationBy 1 0 0 := by
  refine ⟨paintGL_drawn cam reg w h, ?_, ?_⟩
  · rw [paintGL_drawn]
    simp [sceneIdentityRoot, Registry.gridEntries, Registry.meshEntries, defaultProps,
      TransformComponent.getTransform]
  · simp [resolveWorldTransform, sceneIdentityRoot, Registry.lookup, Registry.localOf,
      defaultProps, TransformComponent.getTransform]
    norm_num [Mat4.mul, Mat4.idMat, Mat4.translationBy]

/-- Counterexample to C1 as stated: in a concrete scene whose root carries
local translation (2,0,0) and whose renderable child is locally identity,
the child is drawn with model matrix = identity, while its world transform
(the product of ancestor locals, root-to-leaf) is translation (2,0,0). -/
theorem c1_counterexample :
    drawnModelMatrices (paintGL GLResources.ready defaultCamera sceneShiftedRoot 800 600) =
      [Mat4.idMat] ∧
    resolveWorldTransform sceneShiftedRoot 2 1 = Mat4.translationBy 2 0 0 ∧
    Mat4.idMat ≠ Mat4.translationBy 2 0 0 := by
  refine ⟨?_, ?_, ?_⟩
  · rw [paintGL_drawn]
    simp [sceneShiftedRoot, Registry.gridEntries, Registry.meshEntries, defaultProps,
      TransformComponent.getTransform]
  · simp [resolveWorldTransform, sceneShiftedRoot, Registry.lookup, Registry.localOf,
      defaultProps, TransformComponent.getTransform]
    norm_num [Mat4.mul, Mat4.idMat, Mat4.translationBy]
  · intro hEq
    have h03 := congrArg Mat4.m03 hEq
    norm_num [Mat4.idMat, Mat4.translationBy] at h03

/-- Witness for C2's amended statement: in a concrete frame, the grid-pass
shader bind is in the grid segment and is tagged with the grid pass. -/
theorem c2_two_ordered_passes_witness :
    RenderCmd.useShader Pass.grid
        ∈ gridPassCmds GLResources.ready defaultCamera sceneIdentityRoot 800 600 ∧
    (RenderCmd.useShader Pass.grid).pass = Pass.grid :=
  ⟨by simp [gridPassCmds, GLResources.ready],
   (c2_two_ordered_passes GLResources.ready defaultCamera sceneIdentityRoot 800 600).2.1
     (RenderCmd.useShader Pass.grid) (by simp [gridPassCmds, GLResources.ready])⟩

/-- Witness for C4 at a fully successful initialization: the release of the
grid shader is among the releases the teardown performs, and it is a
release event. -/
theorem c4_cleanup_before_context_destroyed_witness :
    GLEvent.release "m_gridShader"
        ∈ releaseList (initializeGL allOkEnv idleWidgetState).1.res ∧
    ∃ n, GLEvent.release "m_gridShader" = GLEvent.release n :=
  ⟨by simp [initializeGL, initResources, allOkEnv, releaseList, resetEvents,
      GLResources.ready],
   (c4_cleanup_before_context_destroyed allOkEnv idleWidgetState).2.1
     (GLEvent.release "m_gridShader")
     (by simp [initializeGL, initResources, allOkEnv, releaseList, resetEvents,
        GLResources.ready])⟩
